import Mathlib

set_option maxHeartbeats 1000000

namespace WbQuant

/-!
Shallow embedding of `src/OpenAlice/sidecar/app.py`: a Flask sidecar exposing
AKShare market data with a 60-second in-memory TTL cache.  Pure data is
embedded directly; wall-clock time is an explicit `Int` parameter `now`;
the upstream data source (`ak.*` calls) is an explicit `Except`-valued
oracle passed to each handler; Python exceptions become `Except.error`.
-/

/-- JSON-serializable scalar cell values: strings and decimal numbers
(floats are embedded as rationals). -/
inductive Val where
  | str : String → Val
  | num : ℚ → Val
deriving DecidableEq

/-- A JSON record as produced by `_df_to_records`: an ordered association
list of field name to value. -/
abbrev Recd := List (String × Val)

/-- One row of a spot snapshot DataFrame (`ak.stock_zh_a_spot_em` /
`ak.stock_hk_spot_em`), with the eleven columns the handlers consume.
`code` is the `代码` column and `pct` the numeric `涨跌幅` column. -/
structure SpotRow where
  code : String
  name : Val
  price : Val
  change : Val
  pct : ℚ
  volume : Val
  amount : Val
  high : Val
  low : Val
  openv : Val
  prevClose : Val
deriving DecidableEq

/-- Values stored in `_cache`: either a raw spot snapshot DataFrame or a
list of JSON records. -/
inductive CVal where
  | spot : List SpotRow → CVal
  | recs : List Recd → CVal
deriving DecidableEq

/-- `_cache: dict[str, tuple[float, Any]]` — key to (timestamp, data). -/
def Cache : Type := String → Option (Int × CVal)

/-- `CACHE_TTL = 60  # seconds` -/
def CACHE_TTL : Int := 60

/-- `_get_cached`: returns the stored data when the entry is younger than
`CACHE_TTL`, else `none`. -/
def _get_cached (c : Cache) (now : Int) (key : String) : Option CVal :=
  match c key with
  | some (ts, data) => if now - ts < CACHE_TTL then some data else none
  | none => none

/-- `_set_cache`: unconditionally overwrite `key` with the current time. -/
def _set_cache (c : Cache) (now : Int) (key : String) (data : CVal) : Cache :=
  fun k => if k = key then some (now, data) else c k

/-- The empty cache (service start-up state). -/
def emptyCache : Cache := fun _ => none

/-! ## Python string primitives used by the handlers -/

/-- Characters removed by Python `str.strip()` (ASCII whitespace). -/
def pyWS (ch : Char) : Bool :=
  ch = ' ' || ch = '\t' || ch = '\n' || ch = '\r' || ch = '\x0b' || ch = '\x0c'

/-- Python `s.strip()`. -/
def pyStrip (s : String) : String :=
  ⟨((s.toList.dropWhile pyWS).reverse.dropWhile pyWS).reverse⟩

/-- Split a character list at every occurrence of `sep` (Python
`str.split` with an explicit single-character separator: empty segments
are kept, and the empty string yields one empty segment). -/
def pySplitAux (sep : Char) : List Char → List Char → List (List Char)
  | [], acc => [acc.reverse]
  | ch :: rest, acc =>
    if ch = sep then acc.reverse :: pySplitAux sep rest []
    else pySplitAux sep rest (ch :: acc)

/-- Python `s.split(sep)` for a one-character separator. -/
def pySplit (s : String) (sep : Char) : List String :=
  (pySplitAux sep s.data []).map (fun l => ⟨l⟩)

/-- `[s.strip() for s in symbols_param.split(",") if s.strip()]` — split on
commas, strip each segment, drop empty segments. -/
def pySplitSymbols (p : String) : List String :=
  ((pySplit p ',').map pyStrip).filter (fun s => s ≠ "")

/-- Digit-run validity inside Python `int()`: nonempty, digits with single
underscores allowed only between digits. The leading character is checked
by the caller. -/
def pyDigitsOk : List Char → Bool
  | [] => false
  | [ch] => ch.isDigit
  | ch :: ch2 :: rest =>
    if ch.isDigit then pyDigitsOk (ch2 :: rest)
    else if ch = '_' then ch2.isDigit && pyDigitsOk (ch2 :: rest)
    else false

/-- Numeric value of a digit run (underscores skipped). -/
def digitsVal (l : List Char) : Nat :=
  (l.filter Char.isDigit).foldl (fun n ch => 10 * n + (ch.toNat - '0'.toNat)) 0

/-- Unsigned part of Python `int()`: a digit run that starts with a digit. -/
def pyUInt (l : List Char) : Option Nat :=
  if pyDigitsOk l && (l.head?.map Char.isDigit).getD false then some (digitsVal l)
  else none

/-- Python `int(s)` for decimal string literals: strip whitespace, optional
sign, digits (with underscores between digits); `none` models the
`ValueError` raised on any other input. -/
def pyInt (s : String) : Option Int :=
  match (pyStrip s).toList with
  | '+' :: rest => (pyUInt rest).map Int.ofNat
  | '-' :: rest => (pyUInt rest).map (fun n => -(n : Int))
  | l => (pyUInt l).map Int.ofNat

/-- Python `l[-count:]` for an arbitrary integer `count`: for positive
`count` the last `count` elements; for `count = 0` the whole list
(`l[-0:] = l[0:]`); for negative `count` the list from index `-count` on. -/
def pyTail (l : List α) (count : Int) : List α :=
  if 0 < count then l.drop (l.length - count.toNat)
  else l.drop (-count).toNat

/-- `count = int(request.args.get("count", 60))`: absent parameter defaults
to the integer 60; a present string goes through `int()`. -/
def parseCount (p : Option String) : Option Int :=
  match p with
  | none => some 60
  | some s => pyInt s

/-! ## Responses and field maps -/

/-- A JSON response body: a record list or an `{"error": msg}` object. -/
inductive Body where
  | recs : List Recd → Body
  | err : String → Body
deriving DecidableEq

/-- An HTTP response: status code and JSON body. -/
structure Resp where
  status : Nat
  body : Body
deriving DecidableEq

/-- `_A_FIELD_MAP` — source column name to output field name, in source
order. -/
def _A_FIELD_MAP : List (String × String) :=
  [("代码", "symbol"), ("名称", "name"), ("最新价", "price"), ("涨跌额", "change"),
   ("涨跌幅", "changePercent"), ("成交量", "volume"), ("成交额", "amount"),
   ("最高", "high"), ("最低", "low"), ("今开", "open"), ("昨收", "prevClose")]

/-- `_HK_FIELD_MAP` — identical content to `_A_FIELD_MAP`. -/
def _HK_FIELD_MAP : List (String × String) := _A_FIELD_MAP

/-- Value of a snapshot row at a source column name. -/
def rowVal (r : SpotRow) : String → Val
  | "代码" => Val.str r.code
  | "名称" => r.name
  | "最新价" => r.price
  | "涨跌额" => r.change
  | "涨跌幅" => Val.num r.pct
  | "成交量" => r.volume
  | "成交额" => r.amount
  | "最高" => r.high
  | "最低" => r.low
  | "今开" => r.openv
  | "昨收" => r.prevClose
  | _ => Val.str ""

/-- `df.rename(columns=m)[list(m.values())]` followed by
`to_dict(orient="records")`, on one row: the record holds exactly the
mapped output fields, in the map's value order. -/
def renameSelect (m : List (String × String)) (r : SpotRow) : Recd :=
  m.map (fun kv => (kv.2, rowVal r kv.1))

/-! ## Spot snapshot fetch and the quote / hot handlers

Each handler takes the cache, the current time, the request parameters
(`none` = absent query parameter), and an oracle giving the outcome the
upstream call would have (`Except.error` = the call raises).  It returns
the response, the new cache, and whether the upstream source was invoked. -/

/-- `_fetch_a_spot`: cached full A-share snapshot. -/
def _fetch_a_spot (c : Cache) (now : Int) (fetch : Except String (List SpotRow)) :
    Except String (List SpotRow) × Cache × Bool :=
  match _get_cached c now "a_spot" with
  | some (CVal.spot df) => (.ok df, c, false)
  | some (CVal.recs _) => (.error "cached object is not a DataFrame", c, false)
  | none =>
    match fetch with
    | .error e => (.error e, c, true)
    | .ok df => (.ok df, _set_cache c now "a_spot" (CVal.spot df), true)

/-- `_fetch_hk_spot`: cached full HK-share snapshot. -/
def _fetch_hk_spot (c : Cache) (now : Int) (fetch : Except String (List SpotRow)) :
    Except String (List SpotRow) × Cache × Bool :=
  match _get_cached c now "hk_spot" with
  | some (CVal.spot df) => (.ok df, c, false)
  | some (CVal.recs _) => (.error "cached object is not a DataFrame", c, false)
  | none =>
    match fetch with
    | .error e => (.error e, c, true)
    | .ok df => (.ok df, _set_cache c now "hk_spot" (CVal.spot df), true)

/-- Shaping step shared by the quote handlers:
`df[df["代码"].isin(symbols)]` then rename/select. -/
def quoteShape (m : List (String × String)) (df : List SpotRow)
    (symbols : List String) : List Recd :=
  (df.filter (fun r => symbols.contains r.code)).map (renameSelect m)

/-- `a_shares_quote` (`/api/a-shares/quote`). -/
def a_shares_quote (c : Cache) (now : Int) (symbolsP : Option String)
    (fetch : Except String (List SpotRow)) : Resp × Cache × Bool :=
  let symbols_param := symbolsP.getD ""
  if symbols_param = "" then (⟨400, .err "symbols parameter required"⟩, c, false)
  else
    match _fetch_a_spot c now fetch with
    | (.error e, c2, b) => (⟨500, .err e⟩, c2, b)
    | (.ok df, c2, b) =>
      (⟨200, .recs (quoteShape _A_FIELD_MAP df (pySplitSymbols symbols_param))⟩, c2, b)

/-- `hk_shares_quote` (`/api/hk-shares/quote`). -/
def hk_shares_quote (c : Cache) (now : Int) (symbolsP : Option String)
    (fetch : Except String (List SpotRow)) : Resp × Cache × Bool :=
  let symbols_param := symbolsP.getD ""
  if symbols_param = "" then (⟨400, .err "symbols parameter required"⟩, c, false)
  else
    match _fetch_hk_spot c now fetch with
    | (.error e, c2, b) => (⟨500, .err e⟩, c2, b)
    | (.ok df, c2, b) =>
      (⟨200, .recs (quoteShape _HK_FIELD_MAP df (pySplitSymbols symbols_param))⟩, c2, b)

/-- Descending order on `涨跌幅` used by `sort_values(ascending=False)`. -/
def pctGE (a b : SpotRow) : Prop := b.pct ≤ a.pct

instance : DecidableRel pctGE := fun a b => inferInstanceAs (Decidable (b.pct ≤ a.pct))

instance : IsTotal SpotRow pctGE := ⟨fun a b => le_total b.pct a.pct⟩

instance : IsTrans SpotRow pctGE := ⟨fun _ _ _ h1 h2 => le_trans h2 h1⟩

/-- `df.sort_values("涨跌幅", ascending=False)`. -/
def sortPctDesc (df : List SpotRow) : List SpotRow := List.insertionSort pctGE df

/-- Shaping step of the hot handlers: sort descending by percent change,
`head(20)`, rename/select. -/
def hotShape (m : List (String × String)) (df : List SpotRow) : List Recd :=
  ((sortPctDesc df).take 20).map (renameSelect m)

/-- `a_shares_hot` (`/api/a-shares/hot`). -/
def a_shares_hot (c : Cache) (now : Int)
    (fetch : Except String (List SpotRow)) : Resp × Cache × Bool :=
  match _fetch_a_spot c now fetch with
  | (.error e, c2, b) => (⟨500, .err e⟩, c2, b)
  | (.ok df, c2, b) => (⟨200, .recs (hotShape _A_FIELD_MAP df)⟩, c2, b)

/-- `hk_shares_hot` (`/api/hk-shares/hot`). -/
def hk_shares_hot (c : Cache) (now : Int)
    (fetch : Except String (List SpotRow)) : Resp × Cache × Bool :=
  match _fetch_hk_spot c now fetch with
  | (.error e, c2, b) => (⟨500, .err e⟩, c2, b)
  | (.ok df, c2, b) => (⟨200, .recs (hotShape _HK_FIELD_MAP df)⟩, c2, b)

/-! ## K-line fetch and handlers -/

/-- A raw upstream history DataFrame: ordered column names plus rows as
records over those column names. -/
structure KDF where
  cols : List String
  rows : List Recd
deriving DecidableEq

/-- The k-line column rename map
(`{"日期": "date", "开盘": "open", ...}`). -/
def _K_RENAME : List (String × String) :=
  [("日期", "date"), ("开盘", "open"), ("收盘", "close"),
   ("最高", "high"), ("最低", "low"), ("成交量", "volume")]

/-- `df.rename(columns=m)` on one column name: mapped when present in the
map, otherwise unchanged. -/
def renameKey (m : List (String × String)) (col : String) : String :=
  (m.lookup col).getD col

/-- `cols = ["date", "open", "close", "high", "low", "volume"]`. -/
def _K_COLS : List String := ["date", "open", "close", "high", "low", "volume"]

/-- `str(v)` coercion used by `df["date"].astype(str)`. -/
def valToStr : Val → Val
  | .str s => .str s
  | .num q => .str (toString q)

/-- Cell of a row at a renamed column name, after `df.rename`. -/
def rowCell (row : Recd) (col : String) : Val :=
  ((row.map (fun kv => (renameKey _K_RENAME kv.1, kv.2))).lookup col).getD (Val.str "")

/-- The k-line transform: rename columns, keep the known columns that are
present (in `_K_COLS` order), stringify the date column, convert to
records.  `df["date"].astype(str)` raises a `KeyError` when no date column
survives the selection, which the embedding returns as `Except.error`. -/
def kTransform (df : KDF) : Except String (List Recd) :=
  let cols2 := df.cols.map (renameKey _K_RENAME)
  let sel := _K_COLS.filter (fun col => cols2.contains col)
  if sel.contains "date" then
    .ok (df.rows.map (fun row =>
      sel.map (fun col =>
        (col, if col = "date" then valToStr (rowCell row col) else rowCell row col))))
  else .error "KeyError: date"

/-- Cache key `f"a_kline_{symbol}_{period}"`. -/
def aKlineKey (symbol period : String) : String :=
  "a_kline_" ++ symbol ++ "_" ++ period

/-- Cache key `f"hk_kline_{symbol}_{period}"`. -/
def hkKlineKey (symbol period : String) : String :=
  "hk_kline_" ++ symbol ++ "_" ++ period

/-- Core of both kline handlers, parameterized by the cache-key builder.
Mirrors the source order: parse `count` first (a `ValueError` there is
caught by the handler's `try` and becomes a 500), then the missing-symbol
400 check, then cache lookup, then fetch + transform + store. -/
def klineHandler (key : String → String → String) (c : Cache) (now : Int)
    (symbolP periodP countP : Option String)
    (fetch : Except String KDF) : Resp × Cache × Bool :=
  let symbol := symbolP.getD ""
  let period := periodP.getD "daily"
  match parseCount countP with
  | none => (⟨500, .err "invalid literal for int() with base 10"⟩, c, false)
  | some count =>
    if symbol = "" then (⟨400, .err "symbol parameter required"⟩, c, false)
    else
      let cache_key := key symbol period
      match _get_cached c now cache_key with
      | some (CVal.recs cached) => (⟨200, .recs (pyTail cached count)⟩, c, false)
      | some (CVal.spot _) => (⟨500, .err "Object of type DataFrame is not JSON serializable"⟩, c, false)
      | none =>
        match fetch with
        | .error e => (⟨500, .err e⟩, c, true)
        | .ok df =>
          match kTransform df with
          | .error e => (⟨500, .err e⟩, c, true)
          | .ok records =>
            (⟨200, .recs (pyTail records count)⟩,
             _set_cache c now cache_key (CVal.recs records), true)

/-- `a_shares_kline` (`/api/a-shares/kline`). -/
def a_shares_kline (c : Cache) (now : Int) (symbolP periodP countP : Option String)
    (fetch : Except String KDF) : Resp × Cache × Bool :=
  klineHandler aKlineKey c now symbolP periodP countP fetch

/-- `hk_shares_kline` (`/api/hk-shares/kline`). -/
def hk_shares_kline (c : Cache) (now : Int) (symbolP periodP countP : Option String)
    (fetch : Except String KDF) : Resp × Cache × Bool :=
  klineHandler hkKlineKey c now symbolP periodP countP fetch

/-! ## News handler -/

/-- The news column rename map. -/
def _N_RENAME : List (String × String) :=
  [("新闻标题", "title"), ("发布时间", "time"), ("新闻内容", "content"), ("新闻链接", "url")]

/-- `cols = ["title", "time", "content", "url"]`. -/
def _N_COLS : List String := ["title", "time", "content", "url"]

/-- News transform: `head(30)`, rename, keep known present columns. -/
def newsTransform (df : KDF) : List Recd :=
  let cols2 := df.cols.map (renameKey _N_RENAME)
  let sel := _N_COLS.filter (fun col => cols2.contains col)
  (df.rows.take 30).map (fun row =>
    sel.map (fun col =>
      (col, ((row.map (fun kv => (renameKey _N_RENAME kv.1, kv.2))).lookup col).getD (Val.str ""))))

/-- `news_market` (`/api/news/market`). -/
def news_market (c : Cache) (now : Int)
    (fetch : Except String KDF) : Resp × Cache × Bool :=
  match _get_cached c now "news_market" with
  | some (CVal.recs cached) => (⟨200, .recs cached⟩, c, false)
  | some (CVal.spot _) => (⟨500, .err "Object of type DataFrame is not JSON serializable"⟩, c, false)
  | none =>
    match fetch with
    | .error e => (⟨500, .err e⟩, c, true)
    | .ok df =>
      let records := newsTransform df
      (⟨200, .recs records⟩, _set_cache c now "news_market" (CVal.recs records), true)

/-! ## Auxiliary definitions for the statements -/

/-- Spec-side notion of "the last `count` entries of a list" (the whole
list when `count` exceeds its length, empty when `count ≤ 0`). -/
def lastCountEntries (count : Int) (l : List Recd) : List Recd :=
  l.drop (l.length - count.toNat)

/-- The `changePercent` field of an output record (0 when absent or
non-numeric). -/
def recPct (rec : Recd) : ℚ :=
  match rec.lookup "changePercent" with
  | some (Val.num q) => q
  | _ => 0

/-- The `symbol` field of an output record. -/
def recSymbol (rec : Recd) : Option Val := rec.lookup "symbol"

/-- A snapshot row with a given code and percent change, all other cells
blank. -/
def mkRow (code : String) (pct : ℚ) : SpotRow :=
  ⟨code, .str "", .str "", .str "", pct, .str "", .str "", .str "", .str "", .str "", .str ""⟩

/-- A request hitting one of the two A-share snapshot consumers. -/
inductive SpotReq where
  | quote (symbolsP : Option String)
  | hot

/-- One A-share snapshot-consumer request at a given time: the resulting
cache and whether the upstream source was invoked. -/
def spotStep (c : Cache) (req : Int × SpotReq)
    (fetch : Except String (List SpotRow)) : Cache × Bool :=
  match req.2 with
  | .quote sp => ((a_shares_quote c req.1 sp fetch).2.1, (a_shares_quote c req.1 sp fetch).2.2)
  | .hot => ((a_shares_hot c req.1 fetch).2.1, (a_shares_hot c req.1 fetch).2.2)

/-- Run a sequence of timed quote/hot requests, counting upstream
invocations. -/
def runSpot (c : Cache) (reqs : List (Int × SpotReq))
    (fetch : Except String (List SpotRow)) : Cache × Nat :=
  match reqs with
  | [] => (c, 0)
  | r :: rest =>
    let s := spotStep c r fetch
    let t := runSpot s.1 rest fetch
    (t.1, (if s.2 then 1 else 0) + t.2)

/-- `'_'` does not occur in the string (symbols as used in practice). -/
def noUnderscore (s : String) : Prop := '_' ∉ s.data

/-! # Theorems -/

/-- C1: Cache Store contract — after `set(k, v)` at time `t`, a `get(k)` at
time `t'` returns exactly `v` when `t' - t < 60` and absent when
`t' - t ≥ 60`; a key never written reads as absent. -/
theorem c1_cache_ttl_contract (c : Cache) (k k' : String) (v : CVal) (t t' : Int) :
    (t' - t < 60 → _get_cached (_set_cache c t k v) t' k = some v) ∧
    (60 ≤ t' - t → _get_cached (_set_cache c t k v) t' k = none) ∧
    (c k' = none → _get_cached c t' k' = none) := by
  refine ⟨?_, ?_, ?_⟩
  · intro h
    simp [_get_cached, _set_cache, CACHE_TTL, h]
  · intro h
    simp [_get_cached, _set_cache, CACHE_TTL]
    omega
  · intro h
    simp [_get_cached, h]

/-- C1 witness: the contract evaluated on a concrete cache, key and times. -/
theorem c1_cache_ttl_contract_witness :
    _get_cached (_set_cache emptyCache 100 "a_spot" (CVal.recs [])) 159 "a_spot"
      = some (CVal.recs []) ∧
    _get_cached (_set_cache emptyCache 100 "a_spot" (CVal.recs [])) 160 "a_spot"
      = none ∧
    _get_cached emptyCache 159 "never_written" = none :=
  ⟨(c1_cache_ttl_contract emptyCache "a_spot" "never_written" (CVal.recs []) 100 159).1
      (by decide),
   (c1_cache_ttl_contract emptyCache "a_spot" "never_written" (CVal.recs []) 100 160).2.1
      (by decide),
   (c1_cache_ttl_contract emptyCache "a_spot" "never_written" (CVal.recs []) 100 159).2.2
      rfl⟩

/-! ### Shared helper lemmas -/

theorem pyTail_of_pos {α} (l : List α) {count : Int} (h : 0 < count) :
    pyTail l count = l.drop (l.length - count.toNat) := by
  simp [pyTail, h]

theorem lastCountEntries_eq_pyTail (l : List Recd) {count : Int} (h : 0 < count) :
    lastCountEntries count l = pyTail l count := by
  simp [lastCountEntries, pyTail, h]

theorem length_lastCountEntries (l : List Recd) (count : Int) :
    (lastCountEntries count l).length ≤ count.toNat := by
  simp only [lastCountEntries, List.length_drop]
  omega

theorem lastCountEntries_of_le (l : List Recd) {count : Int}
    (h : (l.length : Int) ≤ count) : lastCountEntries count l = l := by
  have h0 : l.length - count.toNat = 0 := by omega
  simp [lastCountEntries, h0]

theorem lastCountEntries_lastCountEntries (l : List Recd) {m n : Int}
    (hmn : m ≤ n) :
    lastCountEntries m (lastCountEntries n l) = lastCountEntries m l := by
  unfold lastCountEntries
  rw [List.drop_drop]
  congr 1
  simp only [List.length_drop]
  omega

theorem klineHandler_hit {keyf : String → String → String} {c : Cache} {now : Int}
    {symbol : String} {periodP countP : Option String} {count : Int} {L : List Recd}
    {fetch : Except String KDF}
    (hsym : symbol ≠ "") (hc : parseCount countP = some count)
    (hhit : _get_cached c now (keyf symbol (periodP.getD "daily")) = some (CVal.recs L)) :
    klineHandler keyf c now (some symbol) periodP countP fetch =
      (⟨200, .recs (pyTail L count)⟩, c, false) := by
  unfold klineHandler
  simp [hc, hsym, hhit]

theorem klineHandler_miss {keyf : String → String → String} {c : Cache} {now : Int}
    {symbol : String} {periodP countP : Option String} {count : Int} {df : KDF}
    {records : List Recd} {fetch : Except String KDF}
    (hsym : symbol ≠ "") (hc : parseCount countP = some count)
    (hmiss : _get_cached c now (keyf symbol (periodP.getD "daily")) = none)
    (hf : fetch = .ok df) (ht : kTransform df = .ok records) :
    klineHandler keyf c now (some symbol) periodP countP fetch =
      (⟨200, .recs (pyTail records count)⟩,
       _set_cache c now (keyf symbol (periodP.getD "daily")) (CVal.recs records), true) := by
  unfold klineHandler
  simp [hc, hsym, hmiss, hf, ht]

/-! ### C2 -/

/-- C2 counterexample: with a warm cache entry holding one record, a
request with `count=0` returns the whole stored list (`l[-0:]` is `l[0:]`
in Python), not the last 0 entries, so the response length exceeds
`count`. -/
theorem c2_counterexample :
    (a_shares_kline
        (_set_cache emptyCache 0 "a_kline_600000_daily"
          (CVal.recs [[("date", Val.str "2024-01-02")]]))
        30 (some "600000") none (some "0") (.error "unreached")).1
      = ⟨200, Body.recs [[("date", Val.str "2024-01-02")]]⟩ ∧
    lastCountEntries 0 [[("date", Val.str "2024-01-02")]] = [] ∧
    ([[("date", Val.str "2024-01-02")]] : List Recd) ≠
      lastCountEntries 0 [[("date", Val.str "2024-01-02")]] := by
  refine ⟨by decide, by decide, by decide⟩

/-- C2 (amended): for every warm cache entry `L` and every *positive*
integer `count`, the kline response is exactly the last `count` entries of
`L` (the whole of `L` when `count ≥ |L|`), hence of length at most
`count`; the same holds for the freshly fetched transformed list right
after a cache miss. (For `count = 0` the handler returns the entire list
instead of the empty one, and negative `count` drops a prefix; the
original claim over all integers fails there.) -/
theorem c2_kline_trim (c : Cache) (now : Int) (symbol : String)
    (periodP countP : Option String) (count : Int) (L : List Recd)
    (df : KDF) (records : List Recd) (fetch : Except String KDF)
    (hsym : symbol ≠ "") (hc : parseCount countP = some count) (hpos : 0 < count) :
    (_get_cached c now (aKlineKey symbol (periodP.getD "daily")) = some (CVal.recs L) →
      (a_shares_kline c now (some symbol) periodP countP fetch).1
          = ⟨200, Body.recs (lastCountEntries count L)⟩ ∧
      (lastCountEntries count L).length ≤ count.toNat ∧
      ((L.length : Int) ≤ count → lastCountEntries count L = L)) ∧
    (_get_cached c now (aKlineKey symbol (periodP.getD "daily")) = none →
      fetch = .ok df → kTransform df = .ok records →
      (a_shares_kline c now (some symbol) periodP countP fetch).1
          = ⟨200, Body.recs (lastCountEntries count records)⟩ ∧
      (lastCountEntries count records).length ≤ count.toNat) := by
  constructor
  · intro hhit
    refine ⟨?_, length_lastCountEntries L count, fun h => lastCountEntries_of_le L h⟩
    rw [lastCountEntries_eq_pyTail _ hpos]
    unfold a_shares_kline
    rw [klineHandler_hit hsym hc hhit]
  · intro hmiss hf ht
    refine ⟨?_, length_lastCountEntries records count⟩
    rw [lastCountEntries_eq_pyTail _ hpos]
    unfold a_shares_kline
    rw [klineHandler_miss hsym hc hmiss hf ht]

/-- C2 witness: warm entry with two records, `count=1` returns the last
record only. -/
theorem c2_kline_trim_witness :
    (a_shares_kline
        (_set_cache emptyCache 0 "a_kline_600000_daily"
          (CVal.recs [[("date", Val.str "2024-01-01")], [("date", Val.str "2024-01-02")]]))
        30 (some "600000") none (some "1") (.error "unreached")).1
      = ⟨200, Body.recs [[("date", Val.str "2024-01-02")]]⟩ ∧
    ([[("date", Val.str "2024-01-02")]] : List Recd).length ≤ 1 :=
  ⟨((c2_kline_trim
      (_set_cache emptyCache 0 "a_kline_600000_daily"
        (CVal.recs [[("date", Val.str "2024-01-01")], [("date", Val.str "2024-01-02")]]))
      30 "600000" none (some "1") 1
      [[("date", Val.str "2024-01-01")], [("date", Val.str "2024-01-02")]]
      ⟨[], []⟩ [] (.error "unreached")
      (by decide) (by decide) (by decide)).1 (by decide)).1,
   by decide⟩

/-! ### C3 -/

/-- C3: the kline handler stores the full transformed list under the cache
key (not trimmed to `count`), and trimming happens after cache lookup on
every call, so against the same warm entry the `count=5` response is
exactly the last 5 entries of the `count=10` response, with no upstream
fetch and no cache change on either call. -/
theorem c3_trim_after_cache (c : Cache) (now : Int) (symbol : String)
    (periodP countP : Option String) (count : Int) (L records : List Recd)
    (df : KDF) (fetch : Except String KDF) (hsym : symbol ≠ "") :
    (parseCount countP = some count →
      _get_cached c now (aKlineKey symbol (periodP.getD "daily")) = none →
      fetch = .ok df → kTransform df = .ok records →
      (a_shares_kline c now (some symbol) periodP countP fetch).2.1
          (aKlineKey symbol (periodP.getD "daily")) = some (now, CVal.recs records)) ∧
    (_get_cached c now (aKlineKey symbol (periodP.getD "daily")) = some (CVal.recs L) →
      a_shares_kline c now (some symbol) periodP (some "10") fetch
          = (⟨200, Body.recs (pyTail L 10)⟩, c, false) ∧
      a_shares_kline c now (some symbol) periodP (some "5") fetch
          = (⟨200, Body.recs (pyTail L 5)⟩, c, false) ∧
      pyTail L 5 = lastCountEntries 5 (pyTail L 10)) := by
  constructor
  · intro hc hmiss hf ht
    unfold a_shares_kline
    rw [klineHandler_miss hsym hc hmiss hf ht]
    simp [_set_cache]
  · intro hhit
    refine ⟨?_, ?_, ?_⟩
    · unfold a_shares_kline
      rw [klineHandler_hit hsym (show parseCount (some "10") = some 10 by decide) hhit]
    · unfold a_shares_kline
      rw [klineHandler_hit hsym (show parseCount (some "5") = some 5 by decide) hhit]
    · rw [← lastCountEntries_eq_pyTail L (by decide),
        ← lastCountEntries_eq_pyTail L (by decide),
        lastCountEntries_lastCountEntries L (by decide)]

/-- C3 witness: a three-record warm entry, `count=10` then `count=5`. -/
theorem c3_trim_after_cache_witness :
    a_shares_kline
        (_set_cache emptyCache 0 "a_kline_600000_daily"
          (CVal.recs [[("date", Val.str "2024-01-01")], [("date", Val.str "2024-01-02")],
            [("date", Val.str "2024-01-03")]]))
        30 (some "600000") none (some "5") (.error "unreached")
      = (⟨200, Body.recs [[("date", Val.str "2024-01-01")], [("date", Val.str "2024-01-02")],
          [("date", Val.str "2024-01-03")]]⟩,
         _set_cache emptyCache 0 "a_kline_600000_daily"
          (CVal.recs [[("date", Val.str "2024-01-01")], [("date", Val.str "2024-01-02")],
            [("date", Val.str "2024-01-03")]]),
         false) :=
  ((c3_trim_after_cache
      (_set_cache emptyCache 0 "a_kline_600000_daily"
        (CVal.recs [[("date", Val.str "2024-01-01")], [("date", Val.str "2024-01-02")],
          [("date", Val.str "2024-01-03")]]))
      30 "600000" none none 60
      [[("date", Val.str "2024-01-01")], [("date", Val.str "2024-01-02")],
        [("date", Val.str "2024-01-03")]]
      [] ⟨[], []⟩ (.error "unreached") (by decide)).2 (by decide)).2.1

/-! ### C4 -/

theorem spot_consumers_fresh {c : Cache} {now t0 : Int} {snap : List SpotRow}
    (hc : c "a_spot" = some (t0, CVal.spot snap)) (hlt : now - t0 < 60)
    (sp : Option String) (fetch : Except String (List SpotRow)) :
    (a_shares_quote c now sp fetch).2 = (c, false) ∧
    (a_shares_hot c now fetch).2 = (c, false) := by
  have hg : _get_cached c now "a_spot" = some (CVal.spot snap) := by
    simp [_get_cached, hc, CACHE_TTL, hlt]
  constructor
  · unfold a_shares_quote _fetch_a_spot
    rw [hg]
    by_cases hsp : sp.getD "" = "" <;> simp [hsp]
  · unfold a_shares_hot _fetch_a_spot
    rw [hg]

theorem spotStep_fresh {c : Cache} {t0 : Int} {snap : List SpotRow}
    (hc : c "a_spot" = some (t0, CVal.spot snap)) {r : Int × SpotReq}
    (hr : r.1 - t0 < 60) (fetch : Except String (List SpotRow)) :
    spotStep c r fetch = (c, false) := by
  rcases r with ⟨t, req⟩
  cases req with
  | quote sp =>
    have h := (spot_consumers_fresh hc hr sp fetch).1
    simp [spotStep, h]
  | hot =>
    have h := (spot_consumers_fresh hc hr none fetch).2
    simp [spotStep, h]

/-- C4: with a fresh (age < 60 s) `"a_spot"` entry, the quote and hot
handlers never invoke the upstream source and never change the cache; any
sequence of quote/hot requests whose times lie within 60 s of the cached
fetch performs zero upstream fetches; and on a miss the handlers store the
raw snapshot table itself (shaping is recomputed per call). -/
theorem c4_snapshot_fetch_suppression (c : Cache) (t0 now : Int)
    (snap df : List SpotRow) (sp : Option String) (p : String)
    (fetch : Except String (List SpotRow)) (reqs : List (Int × SpotReq)) :
    (c "a_spot" = some (t0, CVal.spot snap) → now - t0 < 60 →
      (a_shares_quote c now sp fetch).2 = (c, false) ∧
      (a_shares_hot c now fetch).2 = (c, false)) ∧
    (c "a_spot" = some (t0, CVal.spot snap) →
      (∀ t ∈ reqs.map Prod.fst, t - t0 < 60) →
      runSpot c reqs fetch = (c, 0)) ∧
    (_get_cached c now "a_spot" = none → p ≠ "" →
      (a_shares_quote c now (some p) (.ok df)).2.1 "a_spot" = some (now, CVal.spot df) ∧
      (a_shares_hot c now (.ok df)).2.1 "a_spot" = some (now, CVal.spot df)) := by
  refine ⟨fun hc hlt => spot_consumers_fresh hc hlt sp fetch, ?_, ?_⟩
  · intro hc hts
    induction reqs with
    | nil => rfl
    | cons r rest ih =>
      have hr : r.1 - t0 < 60 := hts r.1 (by simp)
      have hstep := spotStep_fresh hc hr fetch
      simp only [runSpot, hstep]
      rw [ih (fun t ht => hts t (by simp [ht]))]
      simp
  · intro hmiss hp
    constructor
    · unfold a_shares_quote _fetch_a_spot
      rw [hmiss]
      simp [hp, _set_cache]
    · unfold a_shares_hot _fetch_a_spot
      rw [hmiss]
      simp [_set_cache]

/-- C4 witness: a hot request and a quote request 10 s and 20 s after a
snapshot cached at time 0 perform zero upstream fetches. -/
theorem c4_snapshot_fetch_suppression_witness :
    runSpot (_set_cache emptyCache 0 "a_spot" (CVal.spot [mkRow "600000" 1]))
        [(10, SpotReq.hot), (20, SpotReq.quote (some "600000"))] (.error "unreached")
      = (_set_cache emptyCache 0 "a_spot" (CVal.spot [mkRow "600000" 1]), 0) :=
  (c4_snapshot_fetch_suppression
      (_set_cache emptyCache 0 "a_spot" (CVal.spot [mkRow "600000" 1]))
      0 0 [mkRow "600000" 1] [] none "" (.error "unreached")
      [(10, SpotReq.hot), (20, SpotReq.quote (some "600000"))]).2.1
    (by simp [_set_cache]) (by decide)

/-! ### C5 -/

/-- C5 counterexample: `symbols=","` denotes the empty symbol list yet the
quote endpoint answers 200 (only the empty *string* triggers the 400), and
a kline request with `symbol` absent but a non-numeric `count` answers 500,
not 400, because `int(count)` runs before the missing-symbol check. -/
theorem c5_counterexample :
    pySplitSymbols "," = [] ∧
    (a_shares_quote emptyCache 0 (some ",") (Except.ok [])).1.status = 200 ∧
    (a_shares_kline emptyCache 0 none none (some "abc") (.error "unreached")).1
      = ⟨500, Body.err "invalid literal for int() with base 10"⟩ := by
  refine ⟨by decide, by decide, by decide⟩

/-- C5 (amended): a quote request whose `symbols` parameter is absent or
the empty string gets HTTP 400 with an error body and no upstream call and
no cache change (a non-empty parameter denoting an empty list, such as
`","`, is instead accepted); a kline request whose `symbol` is absent or
empty gets HTTP 400 provided `count` parses as an integer (absent `count`
defaults to 60), while a non-numeric `count` is caught by the handler's
`try` and yields HTTP 500, also with no upstream call and no cache
change. -/
theorem c5_missing_params (c : Cache) (now : Int) (sp symP perP cntP : Option String)
    (count : Int) (fetchS : Except String (List SpotRow)) (fetchK : Except String KDF) :
    (sp = none ∨ sp = some "" →
      a_shares_quote c now sp fetchS = (⟨400, Body.err "symbols parameter required"⟩, c, false) ∧
      hk_shares_quote c now sp fetchS = (⟨400, Body.err "symbols parameter required"⟩, c, false)) ∧
    (parseCount cntP = some count → symP = none ∨ symP = some "" →
      a_shares_kline c now symP perP cntP fetchK
        = (⟨400, Body.err "symbol parameter required"⟩, c, false) ∧
      hk_shares_kline c now symP perP cntP fetchK
        = (⟨400, Body.err "symbol parameter required"⟩, c, false)) ∧
    (parseCount cntP = none →
      a_shares_kline c now symP perP cntP fetchK
        = (⟨500, Body.err "invalid literal for int() with base 10"⟩, c, false)) := by
  refine ⟨?_, ?_, ?_⟩
  · rintro (rfl | rfl) <;>
      exact ⟨rfl, rfl⟩
  · rintro hc (rfl | rfl) <;>
      refine ⟨?_, ?_⟩ <;>
      simp [a_shares_kline, hk_shares_kline, klineHandler, hc]
  · intro hc
    unfold a_shares_kline klineHandler
    simp [hc]

/-- C5 witness: absent `symbols` gives 400 on quote; absent `symbol` with
default `count` gives 400 on kline. -/
theorem c5_missing_params_witness :
    a_shares_quote emptyCache 0 none (.error "unreached")
      = (⟨400, Body.err "symbols parameter required"⟩, emptyCache, false) ∧
    a_shares_kline emptyCache 0 none none none (.error "unreached")
      = (⟨400, Body.err "symbol parameter required"⟩, emptyCache, false) :=
  ⟨((c5_missing_params emptyCache 0 none none none none 60
      (.error "unreached") (.error "unreached")).1 (Or.inl rfl)).1,
   ((c5_missing_params emptyCache 0 none none none none 60
      (.error "unreached") (.error "unreached")).2.1 (by decide) (Or.inl rfl)).1⟩

/-! ### C6 -/

/-- C6: on every handler, a failing upstream fetch (and for kline also a
failing transform) leaves the cache exactly as it was — `set` is never
reached — and the response is HTTP 500 with an `{"error": ...}` body. -/
theorem c6_failure_atomicity (c : Cache) (now : Int) (e : String)
    (p symbol : String) (periodP countP : Option String) (count : Int) (df : KDF) :
    (p ≠ "" → _get_cached c now "a_spot" = none →
      a_shares_quote c now (some p) (.error e) = (⟨500, Body.err e⟩, c, true)) ∧
    (_get_cached c now "a_spot" = none →
      a_shares_hot c now (.error e) = (⟨500, Body.err e⟩, c, true)) ∧
    (p ≠ "" → _get_cached c now "hk_spot" = none →
      hk_shares_quote c now (some p) (.error e) = (⟨500, Body.err e⟩, c, true)) ∧
    (_get_cached c now "hk_spot" = none →
      hk_shares_hot c now (.error e) = (⟨500, Body.err e⟩, c, true)) ∧
    (symbol ≠ "" → parseCount countP = some count →
      _get_cached c now (aKlineKey symbol (periodP.getD "daily")) = none →
      a_shares_kline c now (some symbol) periodP countP (.error e)
        = (⟨500, Body.err e⟩, c, true)) ∧
    (symbol ≠ "" → parseCount countP = some count →
      _get_cached c now (aKlineKey symbol (periodP.getD "daily")) = none →
      kTransform df = .error e →
      a_shares_kline c now (some symbol) periodP countP (.ok df)
        = (⟨500, Body.err e⟩, c, true)) ∧
    (symbol ≠ "" → parseCount countP = some count →
      _get_cached c now (hkKlineKey symbol (periodP.getD "daily")) = none →
      hk_shares_kline c now (some symbol) periodP countP (.error e)
        = (⟨500, Body.err e⟩, c, true)) ∧
    (_get_cached c now "news_market" = none →
      news_market c now (.error e) = (⟨500, Body.err e⟩, c, true)) := by
  refine ⟨?_, ?_, ?_, ?_, ?_, ?_, ?_, ?_⟩
  · intro hp hm
    unfold a_shares_quote _fetch_a_spot
    rw [hm]
    simp [hp]
  · intro hm
    unfold a_shares_hot _fetch_a_spot
    rw [hm]
  · intro hp hm
    unfold hk_shares_quote _fetch_hk_spot
    rw [hm]
    simp [hp]
  · intro hm
    unfold hk_shares_hot _fetch_hk_spot
    rw [hm]
  · intro hs hc hm
    unfold a_shares_kline klineHandler
    simp [hs, hc, hm]
  · intro hs hc hm ht
    unfold a_shares_kline klineHandler
    simp [hs, hc, hm, ht]
  · intro hs hc hm
    unfold hk_shares_kline klineHandler
    simp [hs, hc, hm]
  · intro hm
    unfold news_market
    rw [hm]

/-- C6 witness: a failing snapshot fetch on the quote handler and a
date-less upstream frame on the kline handler both 500 and leave the empty
cache empty. -/
theorem c6_failure_atomicity_witness :
    a_shares_quote emptyCache 0 (some "600000") (.error "boom")
      = (⟨500, Body.err "boom"⟩, emptyCache, true) ∧
    a_shares_kline emptyCache 0 (some "600000") none none (.ok ⟨["x"], []⟩)
      = (⟨500, Body.err "KeyError: date"⟩, emptyCache, true) :=
  ⟨(c6_failure_atomicity emptyCache 0 "boom" "600000" "600000" none none 60
      ⟨["x"], []⟩).1 (by decide) rfl,
   (c6_failure_atomicity emptyCache 0 "KeyError: date" "600000" "600000" none none 60
      ⟨["x"], []⟩).2.2.2.2.2.1 (by decide) (by decide) rfl rfl⟩

/-! ### C7 -/

theorem nodup_subset_length_le {α} [DecidableEq α] {l l2 : List α}
    (h : l.Nodup) (hs : l ⊆ l2) : l.length ≤ l2.length :=
  calc l.length = l.toFinset.card := (List.toFinset_card_of_nodup h).symm
  _ ≤ l2.toFinset.card := Finset.card_le_card (by
      intro a ha
      simp only [List.mem_toFinset] at *
      exact hs ha)
  _ ≤ l2.length := List.toFinset_card_le l2

theorem fields_renameSelect (m : List (String × String)) (r : SpotRow) :
    (renameSelect m r).map Prod.fst = m.map Prod.snd := by
  simp [renameSelect, List.map_map, Function.comp]

theorem recSymbol_renameSelect (r : SpotRow) :
    recSymbol (renameSelect _A_FIELD_MAP r) = some (Val.str r.code) := rfl

/-- C7 counterexample: a snapshot with two rows sharing the code
`"600000"` makes the quote response for `symbols=600000` two records long —
more than the one requested symbol — because `isin` keeps every matching
row. -/
theorem c7_counterexample :
    pySplitSymbols "600000" = ["600000"] ∧
    (a_shares_quote
        (_set_cache emptyCache 0 "a_spot"
          (CVal.spot [mkRow "600000" 1, mkRow "600000" 2]))
        10 (some "600000") (.error "unreached")).1
      = ⟨200, Body.recs
          (quoteShape _A_FIELD_MAP [mkRow "600000" 1, mkRow "600000" 2] ["600000"])⟩ ∧
    (quoteShape _A_FIELD_MAP [mkRow "600000" 1, mkRow "600000" 2] ["600000"]).length = 2 ∧
    ¬ (quoteShape _A_FIELD_MAP [mkRow "600000" 1, mkRow "600000" 2] ["600000"]).length
        ≤ (["600000"] : List String).length := by
  refine ⟨by decide, by decide, by decide, by decide⟩

/-- C7 (amended): for every snapshot whose rows carry pairwise-distinct
symbols and every non-empty requested list, the quote response keeps only
rows whose symbol is requested, has length at most the number of requested
symbols, gives each record exactly the 11 mapped fields in the FieldMap's
value order, and lists the matching rows in the snapshot's own row order
(a sublist of the snapshot). Without the distinctness hypothesis the
length bound fails, since `isin` keeps every row whose code matches. -/
theorem c7_quote_filter (c : Cache) (now t0 : Int) (df : List SpotRow)
    (p : String) (symbols : List String) (fetch : Except String (List SpotRow))
    (hp : p ≠ "") (hsyms : pySplitSymbols p = symbols) (_hne : symbols ≠ [])
    (hc : c "a_spot" = some (t0, CVal.spot df)) (hlt : now - t0 < 60)
    (hnd : (df.map SpotRow.code).Nodup) :
    (a_shares_quote c now (some p) fetch).1
        = ⟨200, Body.recs (quoteShape _A_FIELD_MAP df symbols)⟩ ∧
    (∀ rec ∈ quoteShape _A_FIELD_MAP df symbols,
        rec.map Prod.fst = _A_FIELD_MAP.map Prod.snd) ∧
    (∀ rec ∈ quoteShape _A_FIELD_MAP df symbols,
        ∃ s ∈ symbols, recSymbol rec = some (Val.str s)) ∧
    (quoteShape _A_FIELD_MAP df symbols).length ≤ symbols.length ∧
    (df.filter (fun r => symbols.contains r.code)).Sublist df ∧
    quoteShape _A_FIELD_MAP df symbols
      = (df.filter (fun r => symbols.contains r.code)).map (renameSelect _A_FIELD_MAP) := by
  have hg : _get_cached c now "a_spot" = some (CVal.spot df) := by
    simp [_get_cached, hc, CACHE_TTL, hlt]
  refine ⟨?_, ?_, ?_, ?_, List.filter_sublist df, rfl⟩
  · unfold a_shares_quote _fetch_a_spot
    rw [hg]
    simp [hp, hsyms]
  · intro rec hrec
    rcases List.mem_map.mp hrec with ⟨r, _, rfl⟩
    exact fields_renameSelect _A_FIELD_MAP r
  · intro rec hrec
    rcases List.mem_map.mp hrec with ⟨r, hr, rfl⟩
    rcases List.mem_filter.mp hr with ⟨_, hmem⟩
    exact ⟨r.code, by simpa using hmem, recSymbol_renameSelect r⟩
  · rw [quoteShape, List.length_map]
    have hsub : ((df.filter (fun r => symbols.contains r.code)).map SpotRow.code).Sublist
        (df.map SpotRow.code) := (List.filter_sublist df).map SpotRow.code
    have hndf : ((df.filter (fun r => symbols.contains r.code)).map SpotRow.code).Nodup :=
      hsub.nodup hnd
    have hsubset : ((df.filter (fun r => symbols.contains r.code)).map SpotRow.code)
        ⊆ symbols := by
      intro x hx
      rcases List.mem_map.mp hx with ⟨r, hr, rfl⟩
      rcases List.mem_filter.mp hr with ⟨_, hmem⟩
      simpa using hmem
    have := nodup_subset_length_le hndf hsubset
    simpa using this

/-- C7 witness: snapshot with distinct codes 600000/000001/300750,
requesting two of them returns exactly those two rows in snapshot order. -/
theorem c7_quote_filter_witness :
    (a_shares_quote
        (_set_cache emptyCache 0 "a_spot"
          (CVal.spot [mkRow "600000" 1, mkRow "000001" 2, mkRow "300750" 3]))
        10 (some "600000,000001") (.error "unreached")).1
      = ⟨200, Body.recs (quoteShape _A_FIELD_MAP
          [mkRow "600000" 1, mkRow "000001" 2, mkRow "300750" 3]
          ["600000", "000001"])⟩ ∧
    (quoteShape _A_FIELD_MAP [mkRow "600000" 1, mkRow "000001" 2, mkRow "300750" 3]
        ["600000", "000001"]).length ≤ (["600000", "000001"] : List String).length :=
  ⟨(c7_quote_filter
      (_set_cache emptyCache 0 "a_spot"
        (CVal.spot [mkRow "600000" 1, mkRow "000001" 2, mkRow "300750" 3]))
      10 0 [mkRow "600000" 1, mkRow "000001" 2, mkRow "300750" 3]
      "600000,000001" ["600000", "000001"] (.error "unreached")
      (by decide) (by decide) (by decide) (by simp [_set_cache]) (by decide)
      (by decide)).1,
   (c7_quote_filter
      (_set_cache emptyCache 0 "a_spot"
        (CVal.spot [mkRow "600000" 1, mkRow "000001" 2, mkRow "300750" 3]))
      10 0 [mkRow "600000" 1, mkRow "000001" 2, mkRow "300750" 3]
      "600000,000001" ["600000", "000001"] (.error "unreached")
      (by decide) (by decide) (by decide) (by simp [_set_cache]) (by decide)
      (by decide)).2.2.2.1⟩

/-! ### C8 -/

theorem recPct_renameSelect (r : SpotRow) :
    recPct (renameSelect _A_FIELD_MAP r) = r.pct := rfl

/-- C8: for every snapshot (reached warm from the cache or fresh from a
fetch), the hot response is the snapshot sorted by `changePercent`
descending, cut to the top 20: its length is exactly `min 20 n`, its
`changePercent` column is sorted in descending order, and every record has
exactly the 11 mapped output fields. -/
theorem c8_hot_list (c : Cache) (now t0 : Int) (df : List SpotRow)
    (fetch : Except String (List SpotRow)) :
    (c "a_spot" = some (t0, CVal.spot df) → now - t0 < 60 →
      (a_shares_hot c now fetch).1 = ⟨200, Body.recs (hotShape _A_FIELD_MAP df)⟩) ∧
    (_get_cached c now "a_spot" = none →
      (a_shares_hot c now (.ok df)).1 = ⟨200, Body.recs (hotShape _A_FIELD_MAP df)⟩) ∧
    (hotShape _A_FIELD_MAP df).length = min 20 df.length ∧
    ((hotShape _A_FIELD_MAP df).map recPct).Sorted (fun a b => b ≤ a) ∧
    (∀ rec ∈ hotShape _A_FIELD_MAP df,
        rec.map Prod.fst = _A_FIELD_MAP.map Prod.snd) := by
  refine ⟨?_, ?_, ?_, ?_, ?_⟩
  · intro hc hlt
    have hg : _get_cached c now "a_spot" = some (CVal.spot df) := by
      simp [_get_cached, hc, CACHE_TTL, hlt]
    unfold a_shares_hot _fetch_a_spot
    rw [hg]
  · intro hm
    unfold a_shares_hot _fetch_a_spot
    rw [hm]
  · have hlen : (sortPctDesc df).length = df.length :=
      (List.perm_insertionSort pctGE df).length_eq
    simp [hotShape, List.length_take, hlen, Nat.min_def, inf_comm]
  · have hsorted : List.Sorted pctGE (sortPctDesc df) :=
      List.sorted_insertionSort pctGE df
    have htake : List.Sorted pctGE ((sortPctDesc df).take 20) :=
      List.Pairwise.sublist (List.take_sublist 20 _) hsorted
    have hmap : (hotShape _A_FIELD_MAP df).map recPct
        = ((sortPctDesc df).take 20).map SpotRow.pct := by
      simp [hotShape, List.map_map]
      rfl
    rw [hmap]
    exact (List.pairwise_map).mpr htake
  · intro rec hrec
    rcases List.mem_map.mp hrec with ⟨r, _, rfl⟩
    exact fields_renameSelect _A_FIELD_MAP r

/-- C8 witness: a three-row snapshot served from the warm cache comes back
sorted descending with all three rows (min 20 3 = 3). -/
theorem c8_hot_list_witness :
    (a_shares_hot
        (_set_cache emptyCache 0 "a_spot"
          (CVal.spot [mkRow "600000" 1, mkRow "000001" 5, mkRow "300750" 3]))
        10 (.error "unreached")).1
      = ⟨200, Body.recs (hotShape _A_FIELD_MAP
          [mkRow "600000" 1, mkRow "000001" 5, mkRow "300750" 3])⟩ ∧
    (hotShape _A_FIELD_MAP [mkRow "600000" 1, mkRow "000001" 5, mkRow "300750" 3]).length
      = min 20 3 :=
  ⟨(c8_hot_list
      (_set_cache emptyCache 0 "a_spot"
        (CVal.spot [mkRow "600000" 1, mkRow "000001" 5, mkRow "300750" 3]))
      10 0 [mkRow "600000" 1, mkRow "000001" 5, mkRow "300750" 3]
      (.error "unreached")).1 (by simp [_set_cache]) (by decide),
   (c8_hot_list
      (_set_cache emptyCache 0 "a_spot"
        (CVal.spot [mkRow "600000" 1, mkRow "000001" 5, mkRow "300750" 3]))
      10 0 [mkRow "600000" 1, mkRow "000001" 5, mkRow "300750" 3]
      (.error "unreached")).2.2.1⟩

/-! ### C9 -/

theorem underscore_split_inj {s1 p1 s2 p2 : List Char}
    (h1 : '_' ∉ s1) (h2 : '_' ∉ s2)
    (h : s1 ++ '_' :: p1 = s2 ++ '_' :: p2) : s1 = s2 ∧ p1 = p2 := by
  induction s1 generalizing s2 with
  | nil =>
    cases s2 with
    | nil => simpa using h
    | cons c2 t2 =>
      rw [List.nil_append, List.cons_append] at h
      injection h with hc _
      exact absurd (hc ▸ List.mem_cons_self c2 t2) h2
  | cons c t ih =>
    cases s2 with
    | nil =>
      rw [List.cons_append, List.nil_append] at h
      injection h with hc _
      exact absurd (hc ▸ List.mem_cons_self c t) h1
    | cons c2 t2 =>
      rw [List.cons_append, List.cons_append] at h
      injection h with hc hrest
      have ht1 : '_' ∉ t := fun hm => h1 (List.mem_cons_of_mem c hm)
      have ht2 : '_' ∉ t2 := fun hm => h2 (List.mem_cons_of_mem c2 hm)
      rcases ih ht1 ht2 hrest with ⟨hs, hp⟩
      exact ⟨by rw [hc, hs], hp⟩

theorem aKlineKey_data (s p : String) :
    (aKlineKey s p).data
      = 'a' :: '_' :: 'k' :: 'l' :: 'i' :: 'n' :: 'e' :: '_'
          :: (s.data ++ '_' :: p.data) := by
  have h8 : ("a_kline_" : String).data = ['a', '_', 'k', 'l', 'i', 'n', 'e', '_'] := rfl
  have hu : ("_" : String).data = ['_'] := rfl
  simp [aKlineKey, String.data_append, h8, hu]

theorem hkKlineKey_data (s p : String) :
    (hkKlineKey s p).data
      = 'h' :: 'k' :: '_' :: 'k' :: 'l' :: 'i' :: 'n' :: 'e' :: '_'
          :: (s.data ++ '_' :: p.data) := by
  have h9 : ("hk_kline_" : String).data
      = ['h', 'k', '_', 'k', 'l', 'i', 'n', 'e', '_'] := rfl
  have hu : ("_" : String).data = ['_'] := rfl
  simp [hkKlineKey, String.data_append, h9, hu]

/-- C9 counterexample: two distinct (symbol, period) pairs for the A-share
kline endpoint build the same cache key, because the key is plain
underscore-joined interpolation and symbols may contain underscores. -/
theorem c9_counterexample :
    aKlineKey "600_000" "daily" = aKlineKey "600" "000_daily" ∧
    ¬ (("600_000" : String) = "600" ∧ ("daily" : String) = "000_daily") := by
  exact ⟨rfl, by decide⟩

/-- C9 (amended): cache-key construction is injective over query shapes as
long as the symbol parameter contains no underscore: distinct
symbol/period pairs then give distinct keys within each kline endpoint,
A-share and HK-share kline keys never coincide, kline keys never coincide
with the fixed keys `"a_spot"`, `"hk_spot"`, `"news_market"`, and the
fixed keys are pairwise distinct. (With an underscore inside the symbol
the original invariant fails, as the counterexample shows.) -/
theorem c9_cache_key_injectivity (s1 p1 s2 p2 : String)
    (h1 : noUnderscore s1) (h2 : noUnderscore s2) :
    (aKlineKey s1 p1 = aKlineKey s2 p2 → s1 = s2 ∧ p1 = p2) ∧
    (hkKlineKey s1 p1 = hkKlineKey s2 p2 → s1 = s2 ∧ p1 = p2) ∧
    aKlineKey s1 p1 ≠ hkKlineKey s2 p2 ∧
    aKlineKey s1 p1 ≠ "a_spot" ∧
    aKlineKey s1 p1 ≠ "hk_spot" ∧
    aKlineKey s1 p1 ≠ "news_market" ∧
    hkKlineKey s1 p1 ≠ "a_spot" ∧
    hkKlineKey s1 p1 ≠ "hk_spot" ∧
    hkKlineKey s1 p1 ≠ "news_market" ∧
    ("a_spot" : String) ≠ "hk_spot" ∧
    ("a_spot" : String) ≠ "news_market" ∧
    ("hk_spot" : String) ≠ "news_market" := by
  have hns1 : '_' ∉ s1.data := h1
  have hns2 : '_' ∉ s2.data := h2
  refine ⟨?_, ?_, ?_, ?_, ?_, ?_, ?_, ?_, ?_, by decide, by decide, by decide⟩
  · intro h
    have hd := congrArg String.data h
    rw [aKlineKey_data, aKlineKey_data] at hd
    simp only [List.cons.injEq, true_and] at hd
    rcases underscore_split_inj hns1 hns2 hd with ⟨hs, hp⟩
    exact ⟨congrArg String.mk hs, congrArg String.mk hp⟩
  · intro h
    have hd := congrArg String.data h
    rw [hkKlineKey_data, hkKlineKey_data] at hd
    simp only [List.cons.injEq, true_and] at hd
    rcases underscore_split_inj hns1 hns2 hd with ⟨hs, hp⟩
    exact ⟨congrArg String.mk hs, congrArg String.mk hp⟩
  · intro h
    have hd := congrArg String.data h
    rw [aKlineKey_data, hkKlineKey_data] at hd
    injection hd with hc _
    exact absurd hc (by decide)
  · intro h
    have hd := congrArg String.data h
    rw [aKlineKey_data,
      (show ("a_spot" : String).data = ['a', '_', 's', 'p', 'o', 't'] from rfl)] at hd
    injection hd with _ hd
    injection hd with _ hd
    injection hd with hc _
    exact absurd hc (by decide)
  · intro h
    have hd := congrArg String.data h
    rw [aKlineKey_data,
      (show ("hk_spot" : String).data = ['h', 'k', '_', 's', 'p', 'o', 't'] from rfl)] at hd
    injection hd with hc _
    exact absurd hc (by decide)
  · intro h
    have hd := congrArg String.data h
    rw [aKlineKey_data,
      (show ("news_market" : String).data
        = ['n', 'e', 'w', 's', '_', 'm', 'a', 'r', 'k', 'e', 't'] from rfl)] at hd
    injection hd with hc _
    exact absurd hc (by decide)
  · intro h
    have hd := congrArg String.data h
    rw [hkKlineKey_data,
      (show ("a_spot" : String).data = ['a', '_', 's', 'p', 'o', 't'] from rfl)] at hd
    injection hd with hc _
    exact absurd hc (by decide)
  · intro h
    have hd := congrArg String.data h
    rw [hkKlineKey_data,
      (show ("hk_spot" : String).data = ['h', 'k', '_', 's', 'p', 'o', 't'] from rfl)] at hd
    injection hd with _ hd
    injection hd with _ hd
    injection hd with _ hd
    injection hd with hc _
    exact absurd hc (by decide)
  · intro h
    have hd := congrArg String.data h
    rw [hkKlineKey_data,
      (show ("news_market" : String).data
        = ['n', 'e', 'w', 's', '_', 'm', 'a', 'r', 'k', 'e', 't'] from rfl)] at hd
    injection hd with hc _
    exact absurd hc (by decide)

/-- C9 witness: underscore-free symbols `600000` vs `000001` with periods
`daily` vs `weekly` — key equality would force parameter equality. -/
theorem c9_cache_key_injectivity_witness :
    (aKlineKey "600000" "daily" = aKlineKey "000001" "weekly" →
      ("600000" : String) = "000001" ∧ ("daily" : String) = "weekly") ∧
    aKlineKey "600000" "daily" ≠ "a_spot" :=
  ⟨(c9_cache_key_injectivity "600000" "daily" "000001" "weekly"
      (show ('_' : Char) ∉ ("600000" : String).data by decide)
      (show ('_' : Char) ∉ ("000001" : String).data by decide)).1,
   (c9_cache_key_injectivity "600000" "daily" "000001" "weekly"
      (show ('_' : Char) ∉ ("600000" : String).data by decide)
      (show ('_' : Char) ∉ ("000001" : String).data by decide)).2.2.2.1⟩

/-! ### C10 -/

/-- C10: the quote handlers depend on the `symbols` parameter only through
its normalization (split on commas, strip whitespace, drop empty
segments), so two non-empty parameter strings with equal normalizations
give identical responses; and a non-empty parameter normalizing to the
empty list is accepted and answers HTTP 200 with the empty record list. -/
theorem c10_symbols_normalization (p1 p2 : String) (c : Cache) (now : Int)
    (df : List SpotRow) (fetch : Except String (List SpotRow)) :
    (p1 ≠ "" → p2 ≠ "" → pySplitSymbols p1 = pySplitSymbols p2 →
      a_shares_quote c now (some p1) fetch = a_shares_quote c now (some p2) fetch ∧
      hk_shares_quote c now (some p1) fetch = hk_shares_quote c now (some p2) fetch) ∧
    (p1 ≠ "" → pySplitSymbols p1 = [] → _get_cached c now "a_spot" = none →
      (a_shares_quote c now (some p1) (.ok df)).1 = ⟨200, Body.recs []⟩) ∧
    (p1 ≠ "" → pySplitSymbols p1 = [] → _get_cached c now "hk_spot" = none →
      (hk_shares_quote c now (some p1) (.ok df)).1 = ⟨200, Body.recs []⟩) := by
  refine ⟨?_, ?_, ?_⟩
  · intro hp1 hp2 heq
    constructor
    · unfold a_shares_quote
      simp only [Option.getD_some]
      rw [if_neg hp1, if_neg hp2, heq]
    · unfold hk_shares_quote
      simp only [Option.getD_some]
      rw [if_neg hp1, if_neg hp2, heq]
  · intro hp hnil hm
    unfold a_shares_quote _fetch_a_spot
    rw [hm]
    simp [hp, hnil, quoteShape]
  · intro hp hnil hm
    unfold hk_shares_quote _fetch_hk_spot
    rw [hm]
    simp [hp, hnil, quoteShape]

/-- C10 witness: `"600000, 000001,"` and `"600000,000001"` normalize alike
and give the same response on a concrete snapshot; `" , "` is accepted
with a 200 empty list. -/
theorem c10_symbols_normalization_witness :
    a_shares_quote emptyCache 0 (some "600000, 000001,") (.ok [mkRow "600000" 1])
      = a_shares_quote emptyCache 0 (some "600000,000001") (.ok [mkRow "600000" 1]) ∧
    (a_shares_quote emptyCache 0 (some " , ") (.ok [mkRow "600000" 1])).1
      = ⟨200, Body.recs []⟩ :=
  ⟨((c10_symbols_normalization "600000, 000001," "600000,000001" emptyCache 0
      [mkRow "600000" 1] (.ok [mkRow "600000" 1])).1
      (by decide) (by decide) (by decide)).1,
   (c10_symbols_normalization " , " "" emptyCache 0 [mkRow "600000" 1]
      (.ok [mkRow "600000" 1])).2.1 (by decide) (by decide) rfl⟩

end WbQuant
